import Mathlib

/-!
Shallow embedding of the intrusive doubly-linked list of
`src/intrusive_list.h` (C++ namespace `intrusive`).

Nodes live in a heap addressed by natural numbers; a C++ pointer is an
`Option Nat` (`none` is `nullptr`).  Each operation is translated
statement by statement from the source, with every pointer read and
write sequenced through the heap, so aliasing behaves exactly as in the
C++.  An operation whose source would dereference a null pointer
(undefined behavior) returns `none`.
-/

/-- Models `intrusive::list_element<Tag>` (src lines 16-52): the two
nullable link fields `prev` and `next`, both default-initialized to
null. -/
structure list_element where
  prev : Option Nat
  next : Option Nat
deriving DecidableEq, Repr

/-- The heap: contents of every node address. -/
abbrev Heap := Nat → list_element

/-- A heap in which every node is default-constructed (unlinked),
modelling `list_element() = default` (src line 18). -/
def emptyHeap : Heap := fun _ => { prev := none, next := none }

/-- Pointwise heap update: write node value `n` at address `p`. -/
def setNode (h : Heap) (p : Nat) (n : list_element) : Heap :=
  fun q => if q = p then n else h q

/-- `list_element::unlink` (src lines 31-40):
`if (prev != nullptr) prev->next = next;`
`if (next != nullptr) next->prev = prev;`
`next = nullptr; prev = nullptr;`
Reads are re-done through the updated heap between the two guarded
writes, exactly as the C++ statements execute. -/
def unlink (h : Heap) (self : Nat) : Heap :=
  let h1 :=
    match (h self).prev with
    | some p => setNode h p { prev := (h p).prev, next := (h self).next }
    | none => h
  let h2 :=
    match (h1 self).next with
    | some q => setNode h1 q { prev := (h1 self).prev, next := (h1 q).next }
    | none => h1
  setNode h2 self { prev := none, next := none }

/-- `list_element(const list_element& other)` (src lines 25-28): the
copy constructor copies `other`'s `prev` and `next` fields into the
freshly created node at address `newId`. -/
def list_element_copy (h : Heap) (other newId : Nat) : Heap :=
  setNode h newId { prev := (h other).prev, next := (h other).next }

/-- Models `intrusive::list<T, Tag>` (src lines 54-324): field `size`
is a C++ `int`, `head` and `tail` are `list_element*` pointers (src
lines 144-146). -/
structure list where
  size : Int
  head : Option Nat
  tail : Option Nat
deriving DecidableEq, Repr

/-- The default constructor (src lines 148-151).  As written,
`tail = list_element(); head = &tail;` is ill-formed C++ (`tail` is a
pointer, not a node).  Modelled from the spec: the list owns a sentinel
node `s` (default-constructed, i.e. unlinked); `tail` points to the
sentinel and `head` also points to the sentinel while the list is
empty. -/
def mk_list (h : Heap) (s : Nat) : Heap × list :=
  (setNode h s { prev := none, next := none },
   { size := 0, head := some s, tail := some s })

/-- `list::push_back` (src lines 181-198).  Empty case: `head = &elem;
tail->prev = head; head->next = tail; size = 1`.  Non-empty case:
`tail->prev->next = &elem; elem.prev = tail->prev; tail->prev = &elem;
size++`.  Note the source never assigns `elem.next` in the non-empty
case (the line `elem.prev = tail;` is commented out there). -/
def push_back (h : Heap) (l : list) (elem : Nat) : Option (Heap × list) :=
  if l.size = 0 then
    match l.tail with
    | none => none
    | some t =>
      let h1 := setNode h t { h t with prev := some elem }
      let h2 := setNode h1 elem { h1 elem with next := l.tail }
      some (h2, { size := 1, head := some elem, tail := l.tail })
  else
    match l.tail with
    | none => none
    | some t =>
      match (h t).prev with
      | none => none
      | some tp =>
        let h1 := setNode h tp { h tp with next := some elem }
        let h2 := setNode h1 elem { h1 elem with prev := (h1 t).prev }
        let h3 := setNode h2 t { h2 t with prev := some elem }
        some (h3, { size := l.size + 1, head := l.head, tail := l.tail })

/-- `list::pop_back` (src lines 200-217).  No-op when `size == 0`;
when `size == 1`: `head->next = nullptr; head = tail; size = 0`;
otherwise `tail = tail->prev; tail->next->prev = nullptr;
tail->next = nullptr; size--`. -/
def pop_back (h : Heap) (l : list) : Option (Heap × list) :=
  if l.size = 0 then some (h, l)
  else if l.size = 1 then
    match l.head with
    | none => none
    | some hd =>
      let h1 := setNode h hd { h hd with next := none }
      some (h1, { size := 0, head := l.tail, tail := l.tail })
  else
    match l.tail with
    | none => none
    | some t =>
      match (h t).prev with
      | none => none
      | some t2 =>
        match (h t2).next with
        | none => none
        | some tn =>
          let h1 := setNode h tn { h tn with prev := none }
          let h2 := setNode h1 t2 { h1 t2 with next := none }
          some (h2, { size := l.size - 1, head := l.head, tail := some t2 })

/-- `list::back` (src lines 219-221): `return *static_cast<T*>(tail);`
— the reference returned denotes the node `tail` points at. -/
def back (l : list) : Option Nat := l.tail

/-- `list::push_front` (src lines 227-243).  Empty case: `tail = &elem;
head = &elem; tail->prev = head; head->next = tail; size = 1`.
Non-empty case: `head->prev = &elem; elem.next = head; head = &elem` —
the source does not increment `size` in this case. -/
def push_front (h : Heap) (l : list) (elem : Nat) : Option (Heap × list) :=
  if l.size = 0 then
    let h1 := setNode h elem { h elem with prev := some elem }
    let h2 := setNode h1 elem { h1 elem with next := some elem }
    some (h2, { size := 1, head := some elem, tail := some elem })
  else
    match l.head with
    | none => none
    | some hd =>
      let h1 := setNode h hd { h hd with prev := some elem }
      let h2 := setNode h1 elem { h1 elem with next := l.head }
      some (h2, { size := l.size, head := some elem, tail := l.tail })

/-- `list::pop_front` (src lines 245-265).  No-op when `size == 0`;
when `size == 1`: `tail->prev = nullptr; head->next = nullptr;
tail = nullptr; head = nullptr; size = 0`; otherwise
`head = head->next; head->prev->next = nullptr; head->prev = nullptr;
size--`. -/
def pop_front (h : Heap) (l : list) : Option (Heap × list) :=
  if l.size = 0 then some (h, l)
  else if l.size = 1 then
    match l.tail with
    | none => none
    | some t =>
      let h1 := setNode h t { h t with prev := none }
      match l.head with
      | none => none
      | some hd =>
        let h2 := setNode h1 hd { h1 hd with next := none }
        some (h2, { size := 0, head := none, tail := none })
  else
    match l.head with
    | none => none
    | some hd =>
      match (h hd).next with
      | none => none
      | some hd2 =>
        match (h hd2).prev with
        | none => none
        | some hp =>
          let h1 := setNode h hp { h hp with next := none }
          let h2 := setNode h1 hd2 { h1 hd2 with prev := none }
          some (h2, { size := l.size - 1, head := some hd2, tail := l.tail })

/-- `list::front` (src lines 267-269): `return *static_cast<T*>(head);`
— the reference returned denotes the node `head` points at. -/
def front (l : list) : Option Nat := l.head

/-- `list::empty` (src lines 275-277): `return size == 0;`. -/
def empty (l : list) : Bool := l.size == 0

/-- `list::end` (src lines 287-292): `return list_iterator(tail)++;` —
the postfix increment returns the pre-increment copy, so the iterator
returned wraps the node `tail` points at. -/
def endIter (l : list) : Option Nat := l.tail

/-- `list::insert` (src lines 294-305).  `pos` is the iterator's
current node.  `if (pos->prev != nullptr) pos->prev->next = &elem;
if (pos->next != nullptr) pos->next->prev = &elem;
elem.prev = pos->prev; elem.next = pos->next;
return list_iterator(&elem);`.  The source touches neither `size` nor
`head` nor the node `pos` itself.  Result: heap, list fields (returned
unchanged, as the member leaves them unchanged), returned iterator. -/
def insert (h : Heap) (l : list) (pos : Nat) (elem : Nat) :
    Heap × list × Nat :=
  let h1 :=
    match (h pos).prev with
    | some pp => setNode h pp { h pp with next := some elem }
    | none => h
  let h2 :=
    match (h1 pos).next with
    | some pn => setNode h1 pn { h1 pn with prev := some elem }
    | none => h1
  let h3 := setNode h2 elem { h2 elem with prev := (h2 pos).prev }
  let h4 := setNode h3 elem { h3 elem with next := (h3 pos).next }
  (h4, l, elem)

/-- `list::erase` (src lines 307-320).  Saves `pos->prev` and
`pos->next`, calls `pos->unlink()`, then returns an iterator on the
saved `prev` if non-null, else on the saved `next` if non-null, else a
null iterator.  The source does not touch `size`, `head` or `tail`.
Result: heap, list fields (unchanged), returned iterator (`none` models
the `return nullptr;` case). -/
def erase (h : Heap) (l : list) (pos : Nat) : Heap × list × Option Nat :=
  let prev_cpy := (h pos).prev
  let next_cpy := (h pos).next
  let h1 := unlink h pos
  let ret :=
    match prev_cpy with
    | some p => some p
    | none =>
      match next_cpy with
      | some q => some q
      | none => none
  (h1, l, ret)

/-- Loop body of `list::clear` (src lines 166-175):
`auto front = head; while (front != nullptr) { auto front_next =
front->next; front->unlink(); front = front_next; }`.
`fuel` bounds the number of iterations; `none` models a loop that has
not terminated within `fuel` steps. -/
def clearLoop : Nat → Heap → Option Nat → Option Heap
  | _, h, none => some h
  | 0, _, some _ => none
  | Nat.succ k, h, some p => clearLoop k (unlink h p) ((h p).next)

/-- `list::clear` (src lines 166-175): runs the unlink loop over the
heap; the member assigns none of the list's fields (`size`, `head`,
`tail` keep their values), so the list record is returned unchanged. -/
def clear (fuel : Nat) (h : Heap) (l : list) : Option Heap × list :=
  (clearLoop fuel h l.head, l)

/-- `list(list&& l)` (src lines 154-156): member-initializes `head`,
`tail`, `size` from the source.  `std::move` on raw pointers and `int`
copies the values and leaves the source's members unchanged.  Result:
(destination, source after the move). -/
def moveCtor (l : list) : list × list :=
  ({ size := l.size, head := l.head, tail := l.tail }, l)

/-- `operator=(list&& l_)` (src lines 162-164): the body is only
`return l_;` — `*this` is not assigned and the source is not cleared.
Result: (destination after, source after, the reference returned). -/
def moveAssign (dst src : list) : list × list × list :=
  (dst, src, src)

/-- `list_iterator::operator++()` (src lines 91-94):
`current = current->next` — the new current node. -/
def iterIncPre (h : Heap) (c : Nat) : Option Nat := (h c).next

/-- `list_iterator::operator--()` (src lines 96-99):
`current = current->prev` — the new current node. -/
def iterDecPre (h : Heap) (c : Nat) : Option Nat := (h c).prev

/-- `list_iterator::operator++(int)` (src lines 101-105): returns the
pre-increment copy and sets `current = current->next`.  Result:
(returned iterator's node, new current node). -/
def iterIncPost (h : Heap) (c : Nat) : Nat × Option Nat :=
  (c, (h c).next)

/-- `list_iterator::operator--(int)` (src lines 107-111): the source
body sets `current = current->next` (not `prev`) and returns the
pre-move copy.  Result: (returned iterator's node, new current
node). -/
def iterDecPost (h : Heap) (c : Nat) : Nat × Option Nat :=
  (c, (h c).next)

/-! ### Concrete states used by the claim checks -/

/-- A fresh list: sentinel at address 0 in an otherwise untouched
heap. -/
def st0 : Heap × list := mk_list emptyHeap 0

def h0 : Heap := st0.1

def l0 : list := st0.2

/-- The state after `push_back` of element 1 on the fresh list. -/
def stB : Heap × list := (push_back h0 l0 1).getD (h0, l0)

def hB : Heap := stB.1

def lB : list := stB.2

/-- A well-formed three-element chain built by hand: sentinel 0,
elements 1, 2, 3 with `1 ↔ 2 ↔ 3 ↔ sentinel`, as the spec's invariant
describes a three-element list. -/
def chainHeap : Heap :=
  setNode
    (setNode
      (setNode
        (setNode emptyHeap 0 { prev := some 3, next := none })
        1 { prev := none, next := some 2 })
      2 { prev := some 1, next := some 3 })
    3 { prev := some 2, next := some 0 }

def chainList : list := { size := 3, head := some 1, tail := some 0 }

/-- Source list used to test container moves: one element (node 1),
sentinel at node 0. -/
def srcList : list := { size := 1, head := some 1, tail := some 0 }

/-- Destination list used to test move assignment: empty list with its
own sentinel at node 5. -/
def dstList : list := { size := 0, head := some 5, tail := some 5 }

/-! ### Helper lemmas -/

/-- Writing back the value already stored at `p` changes nothing. -/
theorem setNode_self (h : Heap) (p : Nat) : setNode h p (h p) = h := by
  funext q
  by_cases hq : q = p <;> simp [setNode, hq]

/-- `unlink` on a node whose fields are already null is a no-op on the
whole heap. -/
theorem unlink_unlinked (h : Heap) (s : Nat)
    (hs : h s = { prev := none, next := none }) : unlink h s = h := by
  have h1 : unlink h s = setNode h s { prev := none, next := none } := by
    simp [unlink, hs]
  rw [h1, ← hs]
  exact setNode_self h s

/-- After `unlink h s`, the node `s` has both fields null. -/
theorem unlink_at_self (h : Heap) (s : Nat) :
    (unlink h s) s = { prev := none, next := none } := by
  simp [unlink, setNode]

/-! ### Claim theorems -/

/-- C7: `unlink()` is idempotent: for every heap and node, unlinking
twice in a row yields exactly the same heap (the node and all chains)
as unlinking once; in particular calling it on an already-unlinked node
(`prev == next == null`) changes nothing. -/
theorem C7_unlink_idem :
    (∀ (h : Heap) (s : Nat), unlink (unlink h s) s = unlink h s) ∧
    (∀ (h : Heap) (s : Nat),
      h s = { prev := none, next := none } → unlink h s = h) :=
  ⟨fun h s => unlink_unlinked (unlink h s) s (unlink_at_self h s),
   fun h s hs => unlink_unlinked h s hs⟩

/-- Witness for C7 at a concrete input: node 0 in the all-unlinked
heap. -/
theorem C7_unlink_idem_witness :
    unlink (unlink emptyHeap 0) 0 = unlink emptyHeap 0 ∧
    unlink emptyHeap 0 = emptyHeap :=
  ⟨C7_unlink_idem.1 emptyHeap 0, C7_unlink_idem.2 emptyHeap 0 rfl⟩

/-- C1 fails on the code: `push_front(1)` on a fresh empty list (whose
sentinel is node 0) makes the real element 1 the `tail` (`tail = some 1`,
no longer the sentinel), leaves `size = 1` while `head == tail`
(breaking `size == 0` iff `head == &tail`), and gives the tail node a
non-null `next` (a self-loop `{prev := some 1, next := some 1}`). -/
theorem C1_push_front_turns_sentinel_into_element :
    l0.tail = some 0 ∧
    (push_front h0 l0 1).map
      (fun r => (r.2.size, r.2.head, r.2.tail, r.1 1)) =
      some (1, some 1, some 1, { prev := some 1, next := some 1 }) := by
  decide

/-- C2 fails on the code: after `push_back(1); push_back(2)` on a fresh
empty list, `back()` denotes node 0 — the sentinel — rather than the
just-pushed element 2, and element 2's `next` is null (never linked to
the sentinel), so forward iteration cannot reach `end()`.  Only the
size part (`size = 2`) holds. -/
theorem C2_push_back_back_is_sentinel :
    ((push_back h0 l0 1).bind (fun r => push_back r.1 r.2 2)).map
      (fun r => (back r.2, (r.1 2).next, r.2.size)) =
      some (some 0, none, 2) := by
  decide

/-- C3 fails on the code: `push_front(2)` on a one-element list leaves
`size = 1` instead of incrementing it to 2 (the non-empty branch of the
source has no `size` update); `front()` does return the new element. -/
theorem C3_push_front_keeps_size :
    (push_front hB lB 2).map (fun r => (r.2.size, front r.2)) =
      some (1, some 2) := by
  decide

/-- C4 fails on the code: erasing the middle element 2 of the chain
`1 ↔ 2 ↔ 3 ↔ sentinel` returns an iterator on node 1 — the
*predecessor*, not the following element 3 — and leaves `size = 3`
(the source never decrements it).  The neighbor-relinking part does
hold: afterwards node 1's `next` is 3 and node 3's `prev` is 1. -/
theorem C4_erase_keeps_size_and_returns_predecessor :
    (erase chainHeap chainList 2).2.2 = some 1 ∧
    (erase chainHeap chainList 2).2.1.size = 3 ∧
    ((erase chainHeap chainList 2).1 1).next = some 3 ∧
    ((erase chainHeap chainList 2).1 3).prev = some 1 := by
  decide

/-- C5 fails on the code: after `clear()` on a one-element list the
size is still 1 (so `empty()` is `false`) and `head` still points at
the now-unlinked element 1 rather than the sentinel; the unlink loop
itself terminates (fuel 3 suffices), but a subsequent `push_back` takes
the non-empty branch and dereferences the cleared sentinel's null
`prev` (undefined behavior), so it does not produce a one-element
list. -/
theorem C5_clear_keeps_size_and_head :
    (clear 3 hB lB).2.size = 1 ∧
    empty (clear 3 hB lB).2 = false ∧
    (clear 3 hB lB).2.head = some 1 ∧
    (clear 3 hB lB).2.tail = some 0 ∧
    (clear 3 hB lB).1.isSome = true ∧
    ((clear 3 hB lB).1.bind
      (fun H => push_back H (clear 3 hB lB).2 2)).isNone = true := by
  decide

/-- C6 fails on the code: move construction from a one-element list
leaves the source with `size = 1` and with `head`/`tail` equal to the
destination's (the two lists share the same chain and sentinel, the
source is not emptied), and move assignment leaves the destination
completely unchanged and returns the source argument instead of
`*this`. -/
theorem C6_move_keeps_source_linked :
    (moveCtor srcList).2.size = 1 ∧
    (moveCtor srcList).2.head = some 1 ∧
    (moveCtor srcList).1.head = (moveCtor srcList).2.head ∧
    (moveCtor srcList).1.tail = (moveCtor srcList).2.tail ∧
    (moveAssign dstList srcList).1 = dstList ∧
    (moveAssign dstList srcList).2.2 = srcList := by
  decide

/-- C8 fails on the code: copy-constructing node 9 from the linked
element 2 of the chain `1 ↔ 2 ↔ 3 ↔ sentinel` copies the link fields —
the fresh node starts as `{prev := some 1, next := some 3}`, not
unlinked. -/
theorem C8_copy_copies_links :
    (list_element_copy chainHeap 2 9) 9 =
      { prev := some 1, next := some 3 } := by
  decide

/-- C9 fails on the code: on a fresh empty list (sentinel node 0,
`end()` wraps node 0), `insert(end(), 1)` leaves `size = 0`, `head`
still at the sentinel and the sentinel node untouched, whereas
`push_back(1)` on the same state yields `size = 1`, `head = 1` and
sentinel `prev = 1` — the observable effects differ. -/
theorem C9_insert_end_ne_push_back :
    endIter l0 = some 0 ∧
    (insert h0 l0 0 1).2.1.size = 0 ∧
    (insert h0 l0 0 1).2.1.head = some 0 ∧
    ((insert h0 l0 0 1).1 0) = { prev := none, next := none } ∧
    (push_back h0 l0 1).map
      (fun r => (r.2.size, r.2.head, (r.1 0).prev)) =
      some (1, some 1, some 1) := by
  decide

/-- C10 fails on the code: on node 2 of the chain `1 ↔ 2 ↔ 3 ↔
sentinel`, the post-decrement moves the iterator to `next` (node 3)
instead of `prev` (node 1), though it does return the pre-move value;
the other three forms (pre/post increment, pre decrement) behave as
claimed. -/
theorem C10_post_decrement_moves_to_next :
    iterDecPost chainHeap 2 = (2, some 3) ∧
    (chainHeap 2).prev = some 1 ∧
    iterIncPre chainHeap 2 = some 3 ∧
    iterDecPre chainHeap 2 = some 1 ∧
    iterIncPost chainHeap 2 = (2, some 3) := by
  decide
